import Mathlib

/-!
Shallow embedding of `src/worker/ray_deployment_manager.py` (class
`RayDeploymentManager`) from the chiron-platform repository, together with
theorems settling the specification claims about it.

External collaborators (artifact registry, HTTP transport, Python `exec`,
Ray Serve, Hypha RPC gateway) are modelled as explicit environment records
supplying the outcome of each external call; the manager's own control flow
is translated statement by statement from the Python source.  Python
exceptions are modelled as values of `PyErr` (exception class plus message);
side effects on the outside world are recorded in an explicit effect trace.
-/

namespace ChironWorker

/-- Python exception value: the dynamic class of the exception together with
its message (`str(e)`).  Constructors cover the classes raised or re-raised
by `ray_deployment_manager.py`: `ValueError`, `TypeError`, the built-in
`TimeoutError`, `httpx.HTTPError` and `RuntimeError`. -/
inductive PyErr where
  | valueError (msg : String)
  | typeError (msg : String)
  | timeoutError (msg : String)
  | httpError (msg : String)
  | runtimeError (msg : String)
  deriving DecidableEq, Repr

/-- Python `str(e)`: the message of the exception. -/
def PyErr.message : PyErr → String
  | .valueError m => m
  | .typeError m => m
  | .timeoutError m => m
  | .httpError m => m
  | .runtimeError m => m

/-- Python `list_of_chars.split(sep)` for a single-character separator:
splits on every occurrence of `sep`, keeping empty segments, and returns
`[[]]` on the empty input (as Python does: `"".split("/") == [""]`). -/
def splitOnCharAux (sep : Char) : List Char → List (List Char)
  | [] => [[]]
  | c :: cs =>
    let rest := splitOnCharAux sep cs
    if c = sep then [] :: rest
    else
      match rest with
      | r :: rs => (c :: r) :: rs
      | [] => [[c]]

/-- Python `s.split(sep)` for a one-character separator `sep`. -/
def pySplit (s : String) (sep : Char) : List String :=
  (splitOnCharAux sep s.data).map List.asString

/-- Python `s.replace("-", "_")`: both arguments are single characters, so
the replacement is a character-wise map. -/
def pyReplaceDash (s : String) : String :=
  (s.data.map (fun c => if c = '-' then '_' else c)).asString

/-- Embedding of `RayDeploymentManager._get_deployment_name` (lines 32-44):
`artifact_id.split("/")[1].replace("-", "_")`, falling back on
`artifact_id.replace("-", "_")` when indexing raises `IndexError` (i.e. the
split yields fewer than two segments). -/
def _get_deployment_name (artifact_id : String) : String :=
  match (pySplit artifact_id '/')[1]? with
  | some seg => pyReplaceDash seg
  | none => pyReplaceDash artifact_id

example : _get_deployment_name "ws/my-model" = "my_model" := by decide
example : _get_deployment_name "a/b/c" = "b" := by decide
example : _get_deployment_name "plain-name" = "plain_name" := by decide

/-- An opaque Python value living in the executed module's namespace; only
its truthiness is observable to the manager (`if not ChironModel`). -/
structure PyVal where
  truthy : Bool
  deriving DecidableEq, Repr

/-- Outcome of downloading the deployment file
(`httpx.AsyncClient.get` + `response.raise_for_status()`, lines 77-80). -/
inductive FetchOutcome where
  | timeout
  | transportError (msg : String)
  | ok (content : String)
  deriving DecidableEq, Repr

/-- Outcome of `exec(code_content, safe_globals)` (line 89): either the code
raises with some message, or it terminates leaving `safe_globals` as the
given association list of defined names. -/
inductive ExecOutcome where
  | raises (msg : String)
  | ok (globals : List (String × PyVal))
  deriving DecidableEq, Repr

/-- Environment consumed by one `load_deployment_code` call: the outcome of
each external interaction, in source order. `exec` is a function of the
fetched source text. -/
structure LoadEnv where
  getFile : Except PyErr String
  fetch : FetchOutcome
  exec : String → ExecOutcome

/-- Embedding of `RayDeploymentManager.load_deployment_code` (lines 53-106).

Control flow from the source: `get_file` errors propagate through the outer
`except Exception: raise`; a download timeout (`httpx.TimeoutException`) is
converted to `TimeoutError("Network request timeout for ...")`; any other
`httpx.HTTPError` (in particular the `HTTPStatusError` from
`raise_for_status`) is logged and re-raised unchanged.  The inner `try`
around `exec` catches every exception — including the
`ValueError("ChironModel not found in ...")` the block itself raises when
the symbol is absent — and re-raises it as
`ValueError("Code execution failed: " + str(e))`.  On success the value
bound to `ChironModel` is returned. -/
def load_deployment_code (artifact_id : String) (env : LoadEnv) :
    Except PyErr PyVal :=
  match env.getFile with
  | .error e => .error e
  | .ok _ =>
    match env.fetch with
    | .timeout =>
        .error (.timeoutError ("Network request timeout for " ++ artifact_id))
    | .transportError msg => .error (.httpError msg)
    | .ok content =>
      match env.exec content with
      | .raises msg => .error (.valueError ("Code execution failed: " ++ msg))
      | .ok globals =>
        match globals.lookup "ChironModel" with
        | none =>
            .error (.valueError ("Code execution failed: " ++
              ("ChironModel not found in " ++ artifact_id)))
        | some v => .ok v

/-- The value returned by the RPC gateway's `register_service` and cached in
`self.service_info` (line 274): an id plus the names of the callables the
gateway accepted. -/
structure ServiceInfo where
  id : String
  names : List String
  deriving DecidableEq, Repr

/-- Mutable state of a `RayDeploymentManager` instance that the claims are
about: `self.service_info`, `None` until the first successful
`update_services` (line 28). -/
structure MgrState where
  serviceInfo : Option ServiceInfo
  deriving DecidableEq, Repr

/-- Embedding of `RayDeploymentManager.__init__` as far as claim-relevant
state goes: `self.service_info = None`. -/
def initState : MgrState := { serviceInfo := none }

/-- Embedding of `RayDeploymentManager.get_service_info` (lines 198-199):
it returns the cached `self.service_info` and cannot raise. -/
def get_service_info (st : MgrState) : Option ServiceInfo :=
  st.serviceInfo

/-- One application entry in the Ray dashboard's
`/api/serve/applications/` report: its `status` string and the keys of its
`deployments` dict. -/
structure AppInfo where
  status : String
  deployments : List String
  deriving DecidableEq, Repr

/-- The dashboard's serve status report: `serve_data["applications"]` as an
association list from application name to its info (a JSON object, so keys
are unique in any real report). -/
structure ServeStatus where
  applications : List (String × AppInfo)
  deriving DecidableEq, Repr

/-- The callable names `update_services` collects (lines 256-262): for every
application named `"Chiron"` whose status is `"RUNNING"`, every key of its
`deployments` dict becomes a service function name. -/
def chironRunningNames (data : ServeStatus) : List String :=
  (data.applications.filter
      (fun p => p.1 == "Chiron" && p.2.status == "RUNNING")).flatMap
    (fun p => p.2.deployments)

/-- Observable side effects on the outside world, recorded in traces:
entering `update_services` (line 233), a successful
`server.register_service(..., {"overwrite": True})` carrying the registered
callable names (lines 265-272), `ray.serve.run(app, name="Chiron")`
(line 141), and `ray.serve.delete(name)` (line 166). -/
inductive Effect where
  | updateAttempt
  | registerService (names : List String)
  | serveRun (deploymentName : String) (appName : String)
  | serveDelete (deploymentName : String)
  deriving DecidableEq, Repr

/-- Environment consumed by one `update_services` call: the outcome of the
dashboard status query, and the gateway's response to registering a given
list of callable names. -/
structure UpdateEnv where
  statusReport : Except PyErr ServeStatus
  register : List String → Except PyErr ServiceInfo

/-- Result triple of a state-passing operation. -/
structure UpdateOutcome where
  result : Except PyErr ServiceInfo
  state : MgrState
  trace : List Effect
  deriving Repr

/-- Embedding of `RayDeploymentManager.update_services` (lines 233-281).

The dashboard query failure or the gateway failure is logged and re-raised
by the surrounding `except` (lines 279-281); `self.service_info` is assigned
only after a successful registration (line 274), so it is unchanged on every
error path.  The registered bundle is rebuilt from scratch from the current
status report (`service_functions` starts empty each call) and is registered
with overwrite semantics. -/
def update_services (env : UpdateEnv) (st : MgrState) : UpdateOutcome :=
  match env.statusReport with
  | .error e => { result := .error e, state := st, trace := [.updateAttempt] }
  | .ok data =>
    let names := chironRunningNames data
    match env.register names with
    | .error e =>
        { result := .error e, state := st, trace := [.updateAttempt] }
    | .ok info =>
        { result := .ok info
          state := { serviceInfo := some info }
          trace := [.updateAttempt, .registerService names] }

/-- The artifact record returned by `artifact_manager.read` as far as
`deploy_artifact` inspects it: `artifact.get("manifest")` is `none` when the
key is absent, otherwise the list of the manifest dict's keys (enough to
evaluate Python's `not manifest` — emptiness — and
`"deployment_config" not in manifest` — key membership). -/
structure Artifact where
  manifest : Option (List String)
  deriving DecidableEq, Repr

/-- Python's `not manifest or "deployment_config" not in manifest`
(line 129), with `manifest = artifact.get("manifest")`. -/
def manifestInvalid : Option (List String) → Bool
  | none => true
  | some keys => keys.isEmpty || !(keys.contains "deployment_config")

/-- Environment consumed by one `deploy_artifact` call: the load
environment, the outcome of `artifact_manager.read`, the outcome of the
`serve.deployment`/`bind`/`serve.run` block, and the environment of the
optional `update_services` call. -/
structure DeployEnv where
  load : LoadEnv
  readArtifact : Except PyErr Artifact
  serveRun : Except PyErr Unit
  upd : UpdateEnv

/-- The dict returned by a successful `deploy_artifact` (line 153):
`{"success": True, "message": ..., "service_id": self.service_info['id']}`. -/
structure DeploySuccess where
  message : String
  service_id : String
  deriving DecidableEq, Repr

/-- Result triple of a `deploy_artifact` call. -/
structure DeployOutcome where
  result : Except PyErr DeploySuccess
  state : MgrState
  trace : List Effect
  deriving Repr

/-- Embedding of `RayDeploymentManager.deploy_artifact` (lines 108-157).

Source order: (1) `load_deployment_code`, its errors re-raised by the outer
`except`; a falsy loaded value raises
`ValueError("Failed to load model code for ...")`. (2) `artifact_manager.read`,
then `ValueError("Invalid manifest or missing deployment_config for ...")`
when the manifest is falsy or lacks `deployment_config`. (3) The inner `try`
computes the deployment name and runs `serve.run(app, name="Chiron")`;
any exception there is wrapped as
`RuntimeError("Ray Serve deployment failed: " + str(e))`. (4) Unless
`skip_update`, `update_services` runs; its failure is logged and execution
continues (lines 147-152). (5) The return dict evaluates
`self.service_info['id']`, which raises `TypeError` when `self.service_info`
is still `None`; the outer `except` re-raises it. -/
def deploy_artifact (artifact_id : String) (skip_update : Bool)
    (env : DeployEnv) (st : MgrState) : DeployOutcome :=
  match load_deployment_code artifact_id env.load with
  | .error e => { result := .error e, state := st, trace := [] }
  | .ok model =>
    if !model.truthy then
      { result := .error (.valueError
          ("Failed to load model code for " ++ artifact_id))
        state := st, trace := [] }
    else
      match env.readArtifact with
      | .error e => { result := .error e, state := st, trace := [] }
      | .ok artifact =>
        if manifestInvalid artifact.manifest then
          { result := .error (.valueError
              ("Invalid manifest or missing deployment_config for " ++
                artifact_id))
            state := st, trace := [] }
        else
          match env.serveRun with
          | .error e =>
              { result := .error (.runtimeError
                  ("Ray Serve deployment failed: " ++ e.message))
                state := st, trace := [] }
          | .ok _ =>
            let tr := [Effect.serveRun (_get_deployment_name artifact_id)
              "Chiron"]
            let next : MgrState × List Effect :=
              if skip_update then (st, tr)
              else
                let u := update_services env.upd st
                (u.state, tr ++ u.trace)
            match (next.1).serviceInfo with
            | none =>
                { result := .error (.typeError
                    ("NoneType object is not subscriptable"))
                  state := next.1, trace := next.2 }
            | some info =>
                { result := .ok
                    { message := "Successfully deployed " ++ artifact_id
                      service_id := info.id }
                  state := next.1, trace := next.2 }

/-- Environment consumed by one `undeploy_artifact` call: the set of
deployment names currently running on the serving runtime, and the
environment of the optional `update_services` call. -/
structure UndeployEnv where
  running : List String
  upd : UpdateEnv

/-- Modelled from the spec: the serving runtime's `serve.delete` - external
to this repository - treats a name that is not actually running as already
satisfied (idempotent, no error); deleting removes the name from the running
set. -/
def serve_delete (name : String) (running : List String) : List String :=
  running.erase name

/-- Result of an `undeploy_artifact` call, including the runtime's running
set after the delete. -/
structure UndeployOutcome where
  result : Except PyErr Unit
  state : MgrState
  running : List String
  trace : List Effect
  deriving Repr

/-- Embedding of `RayDeploymentManager.undeploy_artifact` (lines 159-168):
compute the deployment name, issue `ray.serve.delete(deployment_name)`,
then (unless `skip_update`) run `update_services`, whose errors propagate
(there is no `try` in this method). -/
def undeploy_artifact (artifact_id : String) (skip_update : Bool)
    (env : UndeployEnv) (st : MgrState) : UndeployOutcome :=
  let name := _get_deployment_name artifact_id
  let running2 := serve_delete name env.running
  let tr := [Effect.serveDelete name]
  if skip_update then
    { result := .ok (), state := st, running := running2, trace := tr }
  else
    let u := update_services env.upd st
    match u.result with
    | .error e =>
        { result := .error e, state := u.state, running := running2
          trace := tr ++ u.trace }
    | .ok _ =>
        { result := .ok (), state := u.state, running := running2
          trace := tr ++ u.trace }

/-- One entry of `artifact_manager.list(parent_id=...)`: the claims only
inspect `artifact['id']`. -/
structure ArtifactEntry where
  id : String
  deriving DecidableEq, Repr

/-- Environment consumed by one `deploy_all_artifacts` call: the outcome of
listing the collection, and a per-artifact deploy environment. -/
structure BatchEnv where
  listOutcome : Except PyErr (List ArtifactEntry)
  deployEnv : String → DeployEnv

/-- One entry of the `results` dict built by `deploy_all_artifacts`:
`{'success': True}` or `{'success': False, 'error': str(e)}`. -/
structure DeployRecord where
  success : Bool
  error : Option String
  deriving DecidableEq, Repr

/-- Result of a `deploy_all_artifacts` call. -/
structure BatchOutcome where
  result : Except PyErr (List (String × DeployRecord))
  state : MgrState
  trace : List Effect
  deriving Repr

/-- Loop body accumulator step of `deploy_all_artifacts` (lines 218-225):
deploy one artifact with `skip_update=True`, record success, or catch the
exception and record `{'success': False, 'error': str(e)}`. -/
def deployAllStep (env : BatchEnv)
    (acc : List (String × DeployRecord) × MgrState × List Effect)
    (a : ArtifactEntry) : List (String × DeployRecord) × MgrState × List Effect :=
  let d := deploy_artifact a.id true (env.deployEnv a.id) acc.2.1
  match d.result with
  | .ok _ =>
      (acc.1 ++ [(a.id, { success := true, error := none })], d.state,
        acc.2.2 ++ d.trace)
  | .error e =>
      (acc.1 ++ [(a.id, { success := false, error := some e.message })],
        d.state, acc.2.2 ++ d.trace)

/-- Embedding of `RayDeploymentManager.deploy_all_artifacts`
(lines 201-231): list the collection (errors re-raised), then deploy every
listed artifact with `skip_update=True`, isolating per-artifact failures in
the `results` dict, and return the results.  No `update_services` call
appears anywhere in the method. -/
def deploy_all_artifacts (env : BatchEnv) (st : MgrState) : BatchOutcome :=
  match env.listOutcome with
  | .error e => { result := .error e, state := st, trace := [] }
  | .ok artifacts =>
    let folded := artifacts.foldl (deployAllStep env) ([], st, [])
    { result := .ok folded.1, state := folded.2.1, trace := folded.2.2 }

/-- Recognizer for the effect of entering `update_services`. -/
def isUpdateAttempt : Effect → Bool
  | .updateAttempt => true
  | _ => false

/-- Number of `update_services` invocations recorded in a trace. -/
def refreshCount (tr : List Effect) : Nat := tr.countP isUpdateAttempt

/-- The `results` value recorded for one deploy outcome:
`{'success': True}` on success, `{'success': False, 'error': str(e)}` on a
caught exception. -/
def recordOf : Except PyErr DeploySuccess → DeployRecord
  | .ok _ => { success := true, error := none }
  | .error e => { success := false, error := some e.message }

/-- The `results` entry `deploy_all_artifacts` produces for one artifact:
determined solely by that artifact's own deploy outcome from the shared
starting state. -/
def batchRecord (env : BatchEnv) (st : MgrState) (a : ArtifactEntry) :
    String × DeployRecord :=
  (a.id, recordOf (deploy_artifact a.id true (env.deployEnv a.id) st).result)

theorem refreshCount_append (l₁ l₂ : List Effect) :
    refreshCount (l₁ ++ l₂) = refreshCount l₁ + refreshCount l₂ :=
  List.countP_append _ l₁ l₂

/-- A deploy with `skip_update=True` leaves the manager state untouched and
performs no `update_services` invocation: the service-registration refresh is
deferred. -/
theorem deploy_artifact_skip_inert (aid : String) (env : DeployEnv)
    (st : MgrState) :
    (deploy_artifact aid true env st).state = st ∧
    refreshCount (deploy_artifact aid true env st).trace = 0 := by
  unfold deploy_artifact
  cases load_deployment_code aid env.load with
  | error e => exact ⟨rfl, rfl⟩
  | ok model =>
    cases hT : model.truthy with
    | false => simp [hT, refreshCount, isUpdateAttempt]
    | true =>
      simp only [hT, Bool.not_true, Bool.false_eq_true, if_false]
      cases env.readArtifact with
      | error e => exact ⟨rfl, rfl⟩
      | ok artifact =>
        cases hM : manifestInvalid artifact.manifest with
        | true => simp [hM, refreshCount, isUpdateAttempt]
        | false =>
          simp only [hM, Bool.false_eq_true, if_false]
          cases env.serveRun with
          | error e => exact ⟨rfl, rfl⟩
          | ok u =>
            simp only [if_true]
            cases st.serviceInfo with
            | none => simp [refreshCount, isUpdateAttempt]
            | some info => simp [refreshCount, isUpdateAttempt]

/-- Characterization of the `deploy_all_artifacts` loop: because every
deploy is issued with `skip_update=True`, the state never changes during the
fold, each listed artifact contributes exactly one results entry (in order),
and the trace is the concatenation of the individual deploy traces. -/
theorem deployAll_foldl_eq (env : BatchEnv) (st : MgrState)
    (artifacts : List ArtifactEntry) :
    ∀ (rs : List (String × DeployRecord)) (tr : List Effect),
    artifacts.foldl (deployAllStep env) (rs, st, tr)
      = (rs ++ artifacts.map (batchRecord env st), st,
         tr ++ artifacts.flatMap
           (fun a => (deploy_artifact a.id true (env.deployEnv a.id) st).trace)) := by
  induction artifacts with
  | nil => intro rs tr; simp
  | cons a rest ih =>
    intro rs tr
    have hst := (deploy_artifact_skip_inert a.id (env.deployEnv a.id) st).1
    have hstep : deployAllStep env (rs, st, tr) a
        = (rs ++ [batchRecord env st a], st,
           tr ++ (deploy_artifact a.id true (env.deployEnv a.id) st).trace) := by
      unfold deployAllStep batchRecord recordOf
      cases hres : (deploy_artifact a.id true (env.deployEnv a.id) st).result with
      | ok v => simp [hres, hst]
      | error e => simp [hres, hst]
    rw [List.foldl_cons, hstep, ih]
    simp

/-- Claim C1 (code_bug evidence): a `deploy_all_artifacts` batch performs
zero service-registration refreshes — every per-artifact deploy is issued
with `skip_update=True` (so the per-deploy refresh is indeed deferred), but
no final `update_services` call exists, so the registration is never
refreshed during the whole batch and the manager state is unchanged. -/
theorem deploy_all_artifacts_zero_refreshes (env : BatchEnv) (st : MgrState) :
    refreshCount (deploy_all_artifacts env st).trace = 0
    ∧ (deploy_all_artifacts env st).state = st := by
  unfold deploy_all_artifacts
  cases env.listOutcome with
  | error e => exact ⟨rfl, rfl⟩
  | ok artifacts =>
    simp only [deployAll_foldl_eq env st artifacts [] []]
    refine ⟨?_, trivial⟩
    simp only [List.nil_append]
    induction artifacts with
    | nil => rfl
    | cons a rest ih =>
      rw [List.flatMap_cons, refreshCount_append, ih,
        (deploy_artifact_skip_inert a.id (env.deployEnv a.id) st).2]

/-- Claim C5: in a batch over `pre ++ bad :: post` where `bad`'s deploy
fails, `deploy_all_artifacts` still returns one results entry per listed
artifact, in order (so the tick neither aborts nor retries anyone), the
failure is recorded for `bad`, and every remaining artifact's entry is
exactly the outcome of its own deploy attempt from the same starting
state. -/
theorem deploy_all_artifacts_failure_isolation
    (env : BatchEnv) (st : MgrState) (pre post : List ArtifactEntry)
    (bad : ArtifactEntry) (e : PyErr)
    (hlist : env.listOutcome = .ok (pre ++ bad :: post))
    (hbad : (deploy_artifact bad.id true (env.deployEnv bad.id) st).result
      = .error e) :
    (deploy_all_artifacts env st).result
      = .ok ((pre ++ bad :: post).map (batchRecord env st))
    ∧ ((pre ++ bad :: post).map (batchRecord env st)).map Prod.fst
        = (pre ++ bad :: post).map ArtifactEntry.id
    ∧ (bad.id, { success := false, error := some e.message })
        ∈ (pre ++ bad :: post).map (batchRecord env st)
    ∧ ∀ a ∈ post, batchRecord env st a
        ∈ (pre ++ bad :: post).map (batchRecord env st) := by
  refine ⟨?_, ?_, ?_, ?_⟩
  · unfold deploy_all_artifacts
    rw [hlist]
    simp only [deployAll_foldl_eq env st (pre ++ bad :: post) [] [],
      List.nil_append]
  · simp [batchRecord, List.map_map, Function.comp_def]
  · have hmem : bad ∈ pre ++ bad :: post := by simp
    have : batchRecord env st bad
        = (bad.id, { success := false, error := some e.message }) := by
      unfold batchRecord
      rw [hbad]
      rfl
    rw [← this]
    exact List.mem_map_of_mem _ hmem
  · intro a ha
    exact List.mem_map_of_mem _ (by simp [ha])

/-- Gateway and dashboard environment whose calls all fail; used where an
`update_services` environment is syntactically required but the refresh is
skipped. -/
def updUnusedW : UpdateEnv :=
  { statusReport := .error (.httpError "unused")
    register := fun _ => .error (.httpError "unused") }

/-- A service registration produced by some earlier successful refresh. -/
def infoW : ServiceInfo := { id := "svc-0", names := [] }

/-- Manager state after one earlier successful refresh. -/
def stW : MgrState := { serviceInfo := some infoW }

/-- Load environment of a well-formed artifact: download succeeds and the
source defines `ChironModel`. -/
def goodLoadEnvW : LoadEnv :=
  { getFile := .ok "https://files/main.py"
    fetch := .ok "class ChironModel: ..."
    exec := fun _ => .ok [("ChironModel", { truthy := true })] }

/-- Deploy environment of a well-formed artifact. -/
def goodDeployEnvW : DeployEnv :=
  { load := goodLoadEnvW
    readArtifact := .ok { manifest := some ["deployment_config"] }
    serveRun := .ok ()
    upd := updUnusedW }

/-- Deploy environment of an artifact whose manifest lacks
`deployment_config`. -/
def badDeployEnvW : DeployEnv :=
  { load := goodLoadEnvW
    readArtifact := .ok { manifest := some ["name"] }
    serveRun := .ok ()
    upd := updUnusedW }

/-- Batch environment: three artifacts, the middle one malformed. -/
def batchEnvW : BatchEnv :=
  { listOutcome := .ok [{ id := "c/b-model" }, { id := "c/a-model" },
      { id := "c/c-model" }]
    deployEnv := fun aid =>
      if aid = "c/a-model" then badDeployEnvW else goodDeployEnvW }

/-- The error message the malformed artifact in the sample batch fails
with. -/
def missingCfgMsgW : String :=
  "Invalid manifest or missing deployment_config for c/a-model"

theorem deploy_all_artifacts_failure_isolation_witness :
    (deploy_all_artifacts batchEnvW stW).result
      = .ok [("c/b-model", { success := true, error := none }),
          ("c/a-model", { success := false, error := some missingCfgMsgW }),
          ("c/c-model", { success := true, error := none })]
    ∧ ("c/a-model",
        ({ success := false, error := some missingCfgMsgW } : DeployRecord))
        ∈ [("c/b-model", ({ success := true, error := none } : DeployRecord)),
          ("c/a-model", { success := false, error := some missingCfgMsgW }),
          ("c/c-model", { success := true, error := none })] := by
  have h := deploy_all_artifacts_failure_isolation batchEnvW stW
    [{ id := "c/b-model" }] [{ id := "c/c-model" }] { id := "c/a-model" }
    (.valueError missingCfgMsgW) rfl rfl
  exact ⟨h.1, h.2.2.1⟩

/-- Load environment of an artifact whose source evaluates successfully but
defines no `ChironModel` symbol. -/
def loadEnvNoSymbol : LoadEnv :=
  { getFile := .ok "https://files/main.py"
    fetch := .ok "x = 1"
    exec := fun _ => .ok [("x", { truthy := true })] }

/-- Load environment of an artifact whose source itself raises during
evaluation, with a message that collides with the missing-symbol message. -/
def loadEnvEvalRaises : LoadEnv :=
  { getFile := .ok "https://files/main.py"
    fetch := .ok "raise ValueError(...)"
    exec := fun _ => .raises "ChironModel not found in ws/m" }

/-- Claim C2 (code_bug evidence): when the fetched source evaluates fine but
does not define `ChironModel`, `load_deployment_code` raises the same
`ValueError("Code execution failed: ...")` evaluation-error kind as when the
source itself raises — the inner `except` catches the code's own
`ValueError("ChironModel not found ...")` and re-wraps it — so the two
failure kinds are not distinct: an evaluation that raises the colliding
message yields a literally identical error value. -/
theorem load_deployment_code_conflates_missing_symbol :
    load_deployment_code "ws/m" loadEnvNoSymbol
      = .error (.valueError
        "Code execution failed: ChironModel not found in ws/m")
    ∧ load_deployment_code "ws/m" loadEnvNoSymbol
      = load_deployment_code "ws/m" loadEnvEvalRaises := by
  exact ⟨rfl, rfl⟩

/-- Refresh environment where the dashboard status query fails, so the
post-deploy `update_services` raises. -/
def updFailEnvW : UpdateEnv :=
  { statusReport := .error (.httpError "dashboard unreachable")
    register := fun _ => .ok { id := "svc-0", names := [] } }

/-- Deploy environment where loading, manifest validation and Ray Serve
submission all succeed but the post-deploy refresh fails. -/
def deployEnvRefreshFailW : DeployEnv :=
  { load := goodLoadEnvW
    readArtifact := .ok { manifest := some ["deployment_config"] }
    serveRun := .ok ()
    upd := updFailEnvW }

/-- Claim C3 (code_bug evidence): with no previously succeeded refresh
(`self.service_info` still `None` from `__init__`), a deploy whose code
loading, validation and runtime submission all succeed and whose post-deploy
refresh fails does not return a successful result: the success-return line
evaluates `self.service_info['id']` and raises `TypeError`, even though the
deployment itself was submitted (the trace records the Ray Serve run and the
attempted refresh). -/
theorem deploy_artifact_crashes_when_no_prior_refresh :
    (deploy_artifact "ws/model-a" false deployEnvRefreshFailW initState).result
      = .error (.typeError "NoneType object is not subscriptable")
    ∧ (deploy_artifact "ws/model-a" false deployEnvRefreshFailW
        initState).trace
      = [.serveRun "model_a" "Chiron", .updateAttempt] := by
  exact ⟨rfl, rfl⟩

/-- Complement to the C3 evidence: the downgrade-to-warning behaviour the
spec describes does hold whenever some earlier refresh has succeeded — the
deploy is then reported successful (with the stale registration id) despite
the failed refresh. -/
theorem deploy_artifact_refresh_failure_downgraded (aid : String)
    (env : DeployEnv) (st : MgrState) (info : ServiceInfo) (v : PyVal)
    (art : Artifact) (e : PyErr)
    (hprev : st.serviceInfo = some info)
    (hload : load_deployment_code aid env.load = .ok v)
    (hv : v.truthy = true)
    (hread : env.readArtifact = .ok art)
    (hman : manifestInvalid art.manifest = false)
    (hrun : env.serveRun = .ok ())
    (hupd : env.upd.statusReport = .error e) :
    (deploy_artifact aid false env st).result
      = .ok { message := "Successfully deployed " ++ aid
              service_id := info.id } := by
  unfold deploy_artifact
  rw [hload]
  simp only [hv, Bool.not_true, Bool.false_eq_true, if_false]
  rw [hread]
  simp only [hman, Bool.false_eq_true, if_false]
  rw [hrun]
  simp only [Bool.true_eq_false, if_false]
  unfold update_services
  rw [hupd]
  simp [hprev]

theorem deploy_artifact_refresh_failure_downgraded_witness :
    (deploy_artifact "ws/model-a" false deployEnvRefreshFailW stW).result
      = .ok { message := "Successfully deployed ws/model-a"
              service_id := "svc-0" } :=
  deploy_artifact_refresh_failure_downgraded "ws/model-a"
    deployEnvRefreshFailW stW infoW { truthy := true }
    { manifest := some ["deployment_config"] }
    (.httpError "dashboard unreachable") rfl rfl rfl rfl rfl rfl rfl

/-- Claim C6: when the code loads to a truthy model but the artifact's
manifest is absent, empty, or lacks `deployment_config`, `deploy_artifact`
raises the missing-configuration `ValueError`, records no effect (in
particular no Ray Serve submission), and leaves the manager state
unchanged. -/
theorem deploy_artifact_missing_config (aid : String) (sk : Bool)
    (env : DeployEnv) (st : MgrState) (v : PyVal) (art : Artifact)
    (hload : load_deployment_code aid env.load = .ok v)
    (hv : v.truthy = true)
    (hread : env.readArtifact = .ok art)
    (hman : manifestInvalid art.manifest = true) :
    (deploy_artifact aid sk env st).result
      = .error (.valueError
        ("Invalid manifest or missing deployment_config for " ++ aid))
    ∧ (deploy_artifact aid sk env st).trace = []
    ∧ (deploy_artifact aid sk env st).state = st := by
  unfold deploy_artifact
  rw [hload]
  simp [hv, hread, hman]

theorem deploy_artifact_missing_config_witness :
    (deploy_artifact "c/a-model" false badDeployEnvW initState).result
      = .error (.valueError missingCfgMsgW)
    ∧ (deploy_artifact "c/a-model" false badDeployEnvW initState).trace = []
    ∧ (deploy_artifact "c/a-model" false badDeployEnvW initState).state
      = initState :=
  deploy_artifact_missing_config "c/a-model" false badDeployEnvW initState
    { truthy := true } { manifest := some ["name"] } rfl rfl rfl rfl

/-- Claim C9: once the download URL is resolved, a download timeout makes
`load_deployment_code` fail with the `TimeoutError` kind, a non-success
transport outcome makes it fail with the re-raised `httpx.HTTPError` kind,
and the two kinds are distinct values — neither is swallowed. -/
theorem load_deployment_code_timeout_vs_transport :
    (∀ (aid : String) (env : LoadEnv) (u : String),
      env.getFile = .ok u → env.fetch = .timeout →
      load_deployment_code aid env
        = .error (.timeoutError ("Network request timeout for " ++ aid)))
    ∧ (∀ (aid : String) (env : LoadEnv) (u m : String),
      env.getFile = .ok u → env.fetch = .transportError m →
      load_deployment_code aid env = .error (.httpError m))
    ∧ (∀ (aid m : String),
      PyErr.timeoutError ("Network request timeout for " ++ aid)
        ≠ PyErr.httpError m) := by
  refine ⟨?_, ?_, ?_⟩
  · intro aid env u hg hf
    unfold load_deployment_code
    rw [hg, hf]
  · intro aid env u m hg hf
    unfold load_deployment_code
    rw [hg, hf]
  · intro aid m h
    exact PyErr.noConfusion h

/-- Load environment whose download times out. -/
def loadEnvTimeoutW : LoadEnv :=
  { getFile := .ok "https://files/main.py"
    fetch := .timeout
    exec := fun _ => .raises "unreached" }

/-- Load environment whose download completes with a non-success transport
outcome. -/
def loadEnvNotFoundW : LoadEnv :=
  { getFile := .ok "https://files/main.py"
    fetch := .transportError "404 Not Found"
    exec := fun _ => .raises "unreached" }

theorem load_deployment_code_timeout_vs_transport_witness :
    load_deployment_code "ws/m" loadEnvTimeoutW
      = .error (.timeoutError "Network request timeout for ws/m")
    ∧ load_deployment_code "ws/m" loadEnvNotFoundW
      = .error (.httpError "404 Not Found")
    ∧ PyErr.timeoutError "Network request timeout for ws/m"
      ≠ PyErr.httpError "404 Not Found" :=
  ⟨load_deployment_code_timeout_vs_transport.1 "ws/m" loadEnvTimeoutW
      "https://files/main.py" rfl rfl,
    load_deployment_code_timeout_vs_transport.2.1 "ws/m" loadEnvNotFoundW
      "https://files/main.py" "404 Not Found" rfl rfl,
    load_deployment_code_timeout_vs_transport.2.2 "ws/m" "404 Not Found"⟩

/-- Claim C7: undeploying an artifact whose computed deployment name is not
currently running succeeds without error (the runtime delete is treated as
already satisfied) and leaves the runtime's running set unchanged, provided
the follow-up registration refresh itself succeeds. -/
theorem undeploy_artifact_idempotent (aid : String) (env : UndeployEnv)
    (st : MgrState) (data : ServeStatus) (info : ServiceInfo)
    (hnot : _get_deployment_name aid ∉ env.running)
    (hstat : env.upd.statusReport = .ok data)
    (hreg : env.upd.register (chironRunningNames data) = .ok info) :
    (undeploy_artifact aid false env st).result = .ok ()
    ∧ (undeploy_artifact aid false env st).running = env.running := by
  have hdel := List.erase_of_not_mem hnot
  unfold undeploy_artifact update_services serve_delete
  rw [hstat]
  dsimp only
  rw [hreg]
  simp [hdel]

/-- A serve status report with one running Chiron deployment named
`other_model`. -/
def dataRunW : ServeStatus :=
  { applications := [("Chiron",
      { status := "RUNNING", deployments := ["other_model"] })] }

/-- A healthy refresh environment over `dataRunW`. -/
def updOkEnvW : UpdateEnv :=
  { statusReport := .ok dataRunW
    register := fun names => .ok { id := "svc-1", names := names } }

/-- Undeploy environment in which `ws/model-a`'s deployment name is not
running. -/
def undeployEnvW : UndeployEnv :=
  { running := ["other_model"], upd := updOkEnvW }

theorem undeploy_artifact_idempotent_witness :
    (undeploy_artifact "ws/model-a" false undeployEnvW stW).result = .ok ()
    ∧ (undeploy_artifact "ws/model-a" false undeployEnvW stW).running
      = ["other_model"] :=
  undeploy_artifact_idempotent "ws/model-a" undeployEnvW stW dataRunW
    { id := "svc-1", names := ["other_model"] } (by decide) rfl rfl

/-- Claim C8: a successful `update_services` registers, as one full
overwrite independent of any previous manager state, exactly the deployment
names reported under the umbrella application `"Chiron"` when it is RUNNING;
when no RUNNING `"Chiron"` application exists the computed bundle is empty
and the refresh still succeeds. -/
theorem update_services_registration_exact (env : UpdateEnv)
    (st st' : MgrState) (data : ServeStatus) (info : ServiceInfo)
    (hstat : env.statusReport = .ok data)
    (hreg : env.register (chironRunningNames data) = .ok info) :
    (update_services env st).trace
      = [.updateAttempt, .registerService (chironRunningNames data)]
    ∧ (update_services env st).result = .ok info
    ∧ (update_services env st).state.serviceInfo = some info
    ∧ update_services env st = update_services env st'
    ∧ (∀ (l₁ l₂ : List (String × AppInfo)) (ai : AppInfo),
        data.applications = l₁ ++ ("Chiron", ai) :: l₂ →
        ai.status = "RUNNING" →
        (∀ p ∈ l₁ ++ l₂, p.1 ≠ "Chiron") →
        chironRunningNames data = ai.deployments)
    ∧ ((∀ p ∈ data.applications, p.1 = "Chiron" → p.2.status ≠ "RUNNING") →
        chironRunningNames data = []) := by
  refine ⟨?_, ?_, ?_, ?_, ?_, ?_⟩
  · unfold update_services
    rw [hstat]
    dsimp only
    rw [hreg]
  · unfold update_services
    rw [hstat]
    dsimp only
    rw [hreg]
  · unfold update_services
    rw [hstat]
    dsimp only
    rw [hreg]
  · unfold update_services
    rw [hstat]
    dsimp only
    rw [hreg]
  · intro l₁ l₂ ai h1 h2 h3
    have hnil : ∀ (l : List (String × AppInfo)), (∀ p ∈ l, p.1 ≠ "Chiron") →
        l.filter (fun p => p.1 == "Chiron" && p.2.status == "RUNNING")
          = [] := by
      intro l hl
      refine List.filter_eq_nil_iff.mpr ?_
      intro p hp
      simp [hl p hp]
    have h31 : ∀ p ∈ l₁, p.1 ≠ "Chiron" :=
      fun p hp => h3 p (List.mem_append_left _ hp)
    have h32 : ∀ p ∈ l₂, p.1 ≠ "Chiron" :=
      fun p hp => h3 p (List.mem_append_right _ hp)
    unfold chironRunningNames
    rw [h1, List.filter_append, hnil l₁ h31, List.filter_cons]
    simp [h2, hnil l₂ h32]
  · intro h
    unfold chironRunningNames
    have hfil : data.applications.filter
        (fun p => p.1 == "Chiron" && p.2.status == "RUNNING") = [] := by
      refine List.filter_eq_nil_iff.mpr ?_
      intro p hp
      by_cases hc : p.1 = "Chiron"
      · simp [hc, h p hp hc]
      · simp [hc]
    rw [hfil]
    rfl

/-- A serve status report where the Chiron application is RUNNING with two
deployments, next to an unrelated application. -/
def dataTwoW : ServeStatus :=
  { applications := [("other",
      { status := "RUNNING", deployments := ["x"] }),
      ("Chiron", { status := "RUNNING", deployments := ["m1", "m2"] })] }

/-- A healthy refresh environment over `dataTwoW`. -/
def updEnvTwoW : UpdateEnv :=
  { statusReport := .ok dataTwoW
    register := fun names => .ok { id := "svc-2", names := names } }

/-- A serve status report where the Chiron application is not RUNNING. -/
def dataDownW : ServeStatus :=
  { applications := [("Chiron",
      { status := "DEPLOYING", deployments := ["m1"] })] }

/-- A healthy refresh environment over `dataDownW`. -/
def updEnvDownW : UpdateEnv :=
  { statusReport := .ok dataDownW
    register := fun names => .ok { id := "svc-3", names := names } }

theorem update_services_registration_exact_witness :
    (update_services updEnvTwoW stW).trace
      = [.updateAttempt, .registerService ["m1", "m2"]]
    ∧ (update_services updEnvTwoW stW).result
      = .ok { id := "svc-2", names := ["m1", "m2"] }
    ∧ chironRunningNames dataTwoW = ["m1", "m2"]
    ∧ (update_services updEnvDownW initState).result
      = .ok { id := "svc-3", names := [] }
    ∧ chironRunningNames dataDownW = [] := by
  have hA := update_services_registration_exact updEnvTwoW stW stW dataTwoW
    { id := "svc-2", names := ["m1", "m2"] } rfl rfl
  have hB := update_services_registration_exact updEnvDownW initState
    initState dataDownW { id := "svc-3", names := [] } rfl rfl
  refine ⟨hA.1, hA.2.1, ?_, hB.2.1, ?_⟩
  · exact hA.2.2.2.2.1 [("other", { status := "RUNNING", deployments := ["x"] })]
      [] { status := "RUNNING", deployments := ["m1", "m2"] } rfl rfl
      (by decide)
  · exact hB.2.2.2.2.2 (by decide)

/-- A sequence of registration refreshes applied to a manager state:
`self.service_info` is only ever written by `update_services`. -/
def runUpdates (envs : List UpdateEnv) (st : MgrState) : MgrState :=
  envs.foldl (fun s e => (update_services e s).state) st

/-- The registration info a single refresh environment produces, `none` when
that refresh fails (dashboard query or gateway registration error). -/
def updateResultInfo (e : UpdateEnv) : Option ServiceInfo :=
  match e.statusReport with
  | .error _ => none
  | .ok data =>
    match e.register (chironRunningNames data) with
    | .error _ => none
    | .ok info => some info

/-- The info of the most recent successful refresh in a sequence, starting
from a given cached value. -/
def lastSuccessFrom (start : Option ServiceInfo) (envs : List UpdateEnv) :
    Option ServiceInfo :=
  envs.foldl (fun acc e =>
    match updateResultInfo e with
    | some info => some info
    | none => acc) start

/-- One refresh updates the cached `service_info` exactly when it succeeds,
and leaves it unchanged when it fails. -/
theorem update_services_serviceInfo_step (e : UpdateEnv) (st : MgrState) :
    (update_services e st).state.serviceInfo
      = (match updateResultInfo e with
         | some info => some info
         | none => st.serviceInfo) := by
  unfold update_services updateResultInfo
  cases e.statusReport with
  | error err => rfl
  | ok data =>
    dsimp only
    cases e.register (chironRunningNames data) with
    | error err => rfl
    | ok info => rfl

theorem runUpdates_serviceInfo (envs : List UpdateEnv) :
    ∀ st : MgrState,
    (runUpdates envs st).serviceInfo = lastSuccessFrom st.serviceInfo envs := by
  induction envs with
  | nil => intro st; rfl
  | cons e rest ih =>
    intro st
    show (runUpdates rest (update_services e st).state).serviceInfo = _
    rw [ih, update_services_serviceInfo_step]
    rfl

/-- When no refresh in the sequence succeeds, the cached value never
changes. -/
theorem lastSuccessFrom_all_none (envs : List UpdateEnv) :
    ∀ start : Option ServiceInfo,
    (∀ e ∈ envs, updateResultInfo e = none) →
    lastSuccessFrom start envs = start := by
  induction envs with
  | nil => intro start _; rfl
  | cons e rest ih =>
    intro start h
    have h0 : updateResultInfo e = none := h e (by simp)
    show lastSuccessFrom
      (match updateResultInfo e with
       | some info => some info
       | none => start) rest = start
    rw [h0]
    exact ih start (fun x hx => h x (by simp [hx]))

/-- Claim C10: a fresh manager's `get_service_info` returns `None`; after
any sequence of refreshes it returns the info of the most recent successful
refresh; when no refresh has ever succeeded it still returns `None` (never
failing); and a single successful refresh makes it return exactly that
refresh's info. -/
theorem get_service_info_lifecycle (envs : List UpdateEnv) :
    get_service_info initState = none
    ∧ get_service_info (runUpdates envs initState) = lastSuccessFrom none envs
    ∧ ((∀ e ∈ envs, updateResultInfo e = none) →
        get_service_info (runUpdates envs initState) = none)
    ∧ ∀ (e : UpdateEnv) (info : ServiceInfo) (st : MgrState),
        updateResultInfo e = some info →
        get_service_info (update_services e st).state = some info := by
  refine ⟨rfl, runUpdates_serviceInfo envs initState, ?_, ?_⟩
  · intro h
    have h2 := runUpdates_serviceInfo envs initState
    have h3 := lastSuccessFrom_all_none envs initState.serviceInfo h
    exact h2.trans h3
  · intro e info st he
    show (update_services e st).state.serviceInfo = some info
    rw [update_services_serviceInfo_step, he]

theorem get_service_info_lifecycle_witness :
    get_service_info (runUpdates [updFailEnvW] initState) = none
    ∧ get_service_info (update_services updEnvTwoW initState).state
      = some { id := "svc-2", names := ["m1", "m2"] } := by
  have h := get_service_info_lifecycle [updFailEnvW]
  refine ⟨h.2.2.1 ?_, h.2.2.2 updEnvTwoW
    { id := "svc-2", names := ["m1", "m2"] } initState rfl⟩
  intro e he
  rw [List.mem_singleton.mp he]
  rfl

/-- The deployment-name computation as claim C4 words it: split on `"/"`,
take the trailing segment (falling back on the whole identity when there is
no separator), and normalize hyphens to underscores. -/
def claimed_deployment_name (aid : String) : String :=
  let parts := pySplit aid '/'
  if parts.length ≤ 1 then pyReplaceDash aid
  else pyReplaceDash ((parts.getLast?).getD aid)

/-- The amended computation: the code takes the segment at index 1 (the
second segment), not the trailing one, normalizing hyphens to underscores,
with the whole identity normalized when there is no second segment. -/
def amended_deployment_name (aid : String) : String :=
  let parts := pySplit aid '/'
  if 2 ≤ parts.length then pyReplaceDash ((parts.drop 1).headI)
  else pyReplaceDash aid

/-- Claim C4 counterexample: on an artifact id with three path segments the
code picks the second segment, not the trailing one, so the claimed
trailing-segment computation disagrees with the code. -/
theorem get_deployment_name_not_trailing :
    _get_deployment_name "a/b/c" = "b"
    ∧ claimed_deployment_name "a/b/c" = "c"
    ∧ _get_deployment_name "a/b/c" ≠ claimed_deployment_name "a/b/c" := by
  exact ⟨rfl, rfl, by decide⟩

/-- Claim C4 as amended: the deployment name is the pure function of the
artifact id that takes the segment at index 1 of the `"/"`-split (the whole
normalized id when no such segment exists) with hyphens replaced by
underscores; equal inputs trivially yield equal names. -/
theorem get_deployment_name_second_segment :
    (∀ aid : String, _get_deployment_name aid = amended_deployment_name aid)
    ∧ ∀ x y : String, x = y →
        _get_deployment_name x = _get_deployment_name y := by
  constructor
  · intro aid
    unfold _get_deployment_name amended_deployment_name
    cases pySplit aid '/' with
    | nil => simp
    | cons a rest =>
      cases rest with
      | nil => simp
      | cons b rest2 => simp [List.headI]
  · intro x y h
    rw [h]

theorem get_deployment_name_second_segment_witness :
    _get_deployment_name "ws/my-model"
      = amended_deployment_name "ws/my-model"
    ∧ _get_deployment_name "ws/my-model" = _get_deployment_name "ws/my-model"
    :=
  ⟨get_deployment_name_second_segment.1 "ws/my-model",
    get_deployment_name_second_segment.2 "ws/my-model" "ws/my-model" rfl⟩

end ChironWorker
